import Mathlib

/-!
Verification of the rubikamp-backend record store, repositories and auth gate.

The JavaScript source is embedded shallowly:
- JS objects become Lean structures; the `users` / `products` JSON arrays
  become `List UserRec` / `List ProductRec`.
- `Date.now()` is an explicit `now : Nat` argument to the constructors
  (the source sets `id = Date.now().toString()` and `createdAt = new Date()`).
- The backing JSON file is a `FileState` value: missing (ENOENT), unreadable
  (other read error), corrupt (JSON.parse throws), or holding a parsed
  document.  Functions that read and write the file return the new file
  state explicitly.
- `undefined`-or-present request fields become `Option` values; JS string
  falsiness (`name || product.name`) is modelled by testing for the empty
  string.
- `jwt.verify` is an external library call, modelled as an arbitrary
  function `verify : String → Option String` returning the embedded user id
  on success.
-/

namespace Rubikamp

/-- A stored user record (models the object built by the `User` constructor:
id, name, email, password, isAdmin, createdAt). -/
structure UserRec where
  id : String
  name : String
  email : String
  password : String
  isAdmin : Bool
  createdAt : Nat
deriving DecidableEq, Repr

/-- The public projection returned by `User.getAll` (no password field). -/
structure PublicUser where
  id : String
  name : String
  email : String
  isAdmin : Bool
  createdAt : Nat
deriving DecidableEq, Repr

/-- A stored product record (models the object built by the `Product`
constructor). JS numbers are modelled as `Int`. -/
structure ProductRec where
  id : String
  name : String
  description : String
  price : Int
  category : String
  stock : Int
  createdAt : Nat
deriving DecidableEq, Repr

namespace User

/-- `new User(name, email, password, isAdmin)`:
`id = Date.now().toString()`, `createdAt = new Date()`; the clock reading is
the explicit argument `now`. -/
def make (now : Nat) (name email password : String) (isAdmin : Bool) : UserRec :=
  { id := toString now, name := name, email := email, password := password,
    isAdmin := isAdmin, createdAt := now }

/-- `User.findByEmail(email)`: `data.users.find(user => user.email === email)`. -/
def findByEmail (users : List UserRec) (email : String) : Option UserRec :=
  users.find? (fun user => user.email == email)

/-- `User.findById(id)`: `data.users.find(user => user.id === id)`. -/
def findById (users : List UserRec) (id : String) : Option UserRec :=
  users.find? (fun user => user.id == id)

/-- The per-record projection inside `User.getAll`. -/
def publicOf (user : UserRec) : PublicUser :=
  { id := user.id, name := user.name, email := user.email,
    isAdmin := user.isAdmin, createdAt := user.createdAt }

/-- `User.getAll()`: maps every record to `{id, name, email, isAdmin, createdAt}`. -/
def getAll (users : List UserRec) : List PublicUser :=
  users.map publicOf

/-- `User.create(name, email, password, isAdmin)`: constructs a record,
pushes it onto the array, persists, and returns the record. -/
def create (users : List UserRec) (now : Nat) (name email password : String)
    (isAdmin : Bool) : List UserRec × UserRec :=
  let user := make now name email password isAdmin
  (users ++ [user], user)

end User

/-- Outcome of the `requireAdmin` middleware: 403 or `next()`. -/
inductive AdminCheck where
  | forbidden
  | allowed
deriving DecidableEq, Repr

/-- `requireAdmin`: loads the user record for `req.userId`;
`if (!user || !user.isAdmin)` responds 403, otherwise calls `next()`. -/
def requireAdmin (users : List UserRec) (userId : String) : AdminCheck :=
  match User.findById users userId with
  | none => .forbidden
  | some user => if user.isAdmin then .allowed else .forbidden

/-- Outcome of the `verifyToken` middleware: 401, or `req.userId` set and
`next()` called. -/
inductive AuthResult where
  | unauthorized
  | proceed (userId : String)
deriving DecidableEq, Repr

/-- JavaScript `String.prototype.split(sep)` for a one-character separator,
on character lists: `"".split(' ') = [""]`, `"a  b".split(' ') = ["a","","b"]`. -/
def jsSplitChar (sep : Char) : List Char → List (List Char)
  | [] => [[]]
  | c :: cs =>
    if c = sep then [] :: jsSplitChar sep cs
    else
      match jsSplitChar sep cs with
      | w :: ws => (c :: w) :: ws
      | [] => [[c]]

/-- `req.headers.authorization?.split(' ')[1]`: the piece after the first
space, `none` when the header is absent or has no second piece. -/
def extractToken (authorization : Option String) : Option String :=
  authorization.bind fun h => ((jsSplitChar ' ' h.data).get? 1).map String.mk

/-- `verifyToken` middleware: extracts the token, responds 401 if it is
missing or the empty string (`if (!token)`), otherwise calls `jwt.verify`
(modelled by `verify`); on failure responds 401, on success sets
`req.userId` and calls `next()`. -/
def verifyToken (verify : String → Option String) (authorization : Option String) :
    AuthResult :=
  match extractToken authorization with
  | none => .unauthorized
  | some token =>
    if token = "" then .unauthorized
    else
      match verify token with
      | none => .unauthorized
      | some userId => .proceed userId

/-- State of a backing JSON file: absent (ENOENT on read), failing to read
for another reason, readable but not valid JSON (`JSON.parse` throws), or
holding a parsed document. -/
inductive FileState (α : Type) where
  | missing
  | unreadable
  | corrupt
  | stored (doc : α)
deriving DecidableEq, Repr

/-- A storage failure propagated uncaught out of a repository operation. -/
inductive StoreError where
  | ioError
  | parseError
deriving DecidableEq, Repr

/-- The parsed `users.json` document: `{ users: [...] }`. -/
structure UsersDoc where
  users : List UserRec
deriving DecidableEq, Repr

/-- The parsed `products.json` document: `{ products: [...] }`. -/
structure ProductsDoc where
  products : List ProductRec
deriving DecidableEq, Repr

namespace User

/-- `User.readUsersFile()`: reads and parses the file; on ENOENT writes
`{ users: [] }` and returns it; rethrows any other error.  Returns the new
file state together with the parsed document. -/
def readUsersFile : FileState UsersDoc → Except StoreError (FileState UsersDoc × UsersDoc)
  | .missing => .ok (.stored ⟨[]⟩, ⟨[]⟩)
  | .unreadable => .error .ioError
  | .corrupt => .error .parseError
  | .stored doc => .ok (.stored doc, doc)

end User

/-- JS string fallback `provided || old`: a provided value overwrites only
when truthy; the empty string (and an absent field) falls back to `old`. -/
def jsStringOr (provided : Option String) (old : String) : String :=
  match provided with
  | some s => if s = "" then old else s
  | none => old

/-- JS `provided !== undefined ? provided : old`: any provided value,
including 0, overwrites. -/
def jsDefinedOr (provided : Option Int) (old : Int) : Int :=
  provided.getD old

/-- The destructured body `{ name, description, price, category, stock }` of
`Product.update`; `none` models an omitted or `undefined` field. -/
structure ProductFields where
  name : Option String
  description : Option String
  price : Option Int
  category : Option String
  stock : Option Int
deriving DecidableEq, Repr

namespace Product

/-- `new Product(name, description, price, category, stock = 0)`. -/
def make (now : Nat) (name description : String) (price : Int) (category : String)
    (stock : Int) : ProductRec :=
  { id := toString now, name := name, description := description, price := price,
    category := category, stock := stock, createdAt := now }

/-- `Product.readProductsFile()`: same shape as `User.readUsersFile`. -/
def readProductsFile :
    FileState ProductsDoc → Except StoreError (FileState ProductsDoc × ProductsDoc)
  | .missing => .ok (.stored ⟨[]⟩, ⟨[]⟩)
  | .unreadable => .error .ioError
  | .corrupt => .error .parseError
  | .stored doc => .ok (.stored doc, doc)

/-- `Product.findById(id)`: `data.products.find(product => product.id === id)`. -/
def findById (products : List ProductRec) (id : String) : Option ProductRec :=
  products.find? (fun product => product.id == id)

/-- `Product.findByCategory(category)`: filters by exact category match. -/
def findByCategory (products : List ProductRec) (category : String) : List ProductRec :=
  products.filter (fun product => product.category == category)

/-- `Product.getAll()`: the full records, no projection. -/
def getAll (products : List ProductRec) : List ProductRec :=
  products

/-- `Product.create(...)`: constructs, pushes, persists, returns the record. -/
def create (products : List ProductRec) (now : Nat) (name description : String)
    (price : Int) (category : String) (stock : Int) : List ProductRec × ProductRec :=
  let product := make now name description price category stock
  (products ++ [product], product)

/-- `Product.delete(id)`:
`data.products = data.products.filter(product => product.id !== id)`. -/
def delete (products : List ProductRec) (id : String) : List ProductRec :=
  products.filter (fun product => product.id != id)

/-- The field-by-field assignments of `Product.update` applied to the found
record: strings via `||`, numerics via `!== undefined`. -/
def applyFields (f : ProductFields) (p : ProductRec) : ProductRec :=
  { p with
    name := jsStringOr f.name p.name,
    description := jsStringOr f.description p.description,
    price := jsDefinedOr f.price p.price,
    category := jsStringOr f.category p.category,
    stock := jsDefinedOr f.stock p.stock }

/-- `update` mutates the record object found by `find` — the first record
whose id matches — in place inside the array. -/
def updateFirst (id : String) (g : ProductRec → ProductRec) :
    List ProductRec → List ProductRec
  | [] => []
  | p :: ps => if p.id == id then g p :: ps else p :: updateFirst id g ps

/-- `Product.update(id, fields)`: finds the record by id, throws
`'Product not found'` when absent, otherwise applies the field assignments,
persists and returns the mutated record. -/
def update (products : List ProductRec) (id : String) (f : ProductFields) :
    Except String (List ProductRec × ProductRec) :=
  match products.find? (fun product => product.id == id) with
  | none => .error "Product not found"
  | some p => .ok (updateFirst id (applyFields f) products, applyFields f p)

/-- An update error: a storage failure from the read, or the thrown
`'Product not found'`. -/
inductive UpdateError where
  | storage (e : StoreError)
  | notFound
deriving DecidableEq, Repr

/-- `Product.update` at file level: `readProductsFile`, then find (throwing
before any write when absent), then the writes and `writeProductsFile`. -/
def updateFile (fs : FileState ProductsDoc) (id : String) (f : ProductFields) :
    FileState ProductsDoc × Except UpdateError ProductRec :=
  match readProductsFile fs with
  | .error e => (fs, .error (.storage e))
  | .ok (fs1, doc) =>
    match doc.products.find? (fun product => product.id == id) with
    | none => (fs1, .error .notFound)
    | some p =>
      (.stored ⟨updateFirst id (applyFields f) doc.products⟩, .ok (applyFields f p))

/-- `Product.delete` at file level: `readProductsFile`, filter, write back. -/
def deleteFile (fs : FileState ProductsDoc) (id : String) :
    Except StoreError (FileState ProductsDoc) :=
  match readProductsFile fs with
  | .error e => .error e
  | .ok (_, doc) => .ok (.stored ⟨delete doc.products id⟩)

end Product

/-- The provided-or-absent field set of a user merge-patch update. -/
structure UserFields where
  name : Option String
  email : Option String
  password : Option String
  isAdmin : Option Bool
deriving DecidableEq, Repr

namespace User

/-- Modelled from the spec: the user-route handlers implementing
`update(id, fields)` are not under src (the `User` model defines no update
and `src/routes` is empty).  Per §4.2, each provided field overwrites the
corresponding attribute and omitted or `undefined` fields leave the
existing value untouched. -/
def applyUserFields (f : UserFields) (u : UserRec) : UserRec :=
  { u with
    name := f.name.getD u.name,
    email := f.email.getD u.email,
    password := f.password.getD u.password,
    isAdmin := f.isAdmin.getD u.isAdmin }

/-- The merge-patch applied to the record found by id — the first record
whose id matches. -/
def updateFirst (id : String) (g : UserRec → UserRec) :
    List UserRec → List UserRec
  | [] => []
  | u :: us => if u.id == id then g u :: us else u :: updateFirst id g us

/-- Modelled from the spec: `update(id, fields)` (§4.2) — loads, finds by
id, overwrites each provided field, persists; signals "not found" if no
record matches. -/
def update (users : List UserRec) (id : String) (f : UserFields) :
    Except String (List UserRec × UserRec) :=
  match users.find? (fun user => user.id == id) with
  | none => .error "User not found"
  | some u => .ok (updateFirst id (applyUserFields f) users, applyUserFields f u)

/-- Modelled from the spec: `delete(id)` (§4.2) — removes the record whose
id matches, persists; no-op (no error) if no record matched. -/
def delete (users : List UserRec) (id : String) : List UserRec :=
  users.filter (fun user => user.id != id)

end User

/-- One `User.create` request; `now` is the `Date.now()` reading the call
observes. -/
structure CreateUserReq where
  now : Nat
  name : String
  email : String
  password : String
  isAdmin : Bool
deriving DecidableEq, Repr

/-- A sequence of `User.create` calls applied in order to a store. -/
def User.createMany : List UserRec → List CreateUserReq → List UserRec
  | users, [] => users
  | users, r :: rs =>
    User.createMany (User.create users r.now r.name r.email r.password r.isAdmin).1 rs

/-- One `Product.create` request; `now` is the `Date.now()` reading. -/
structure CreateProductReq where
  now : Nat
  name : String
  description : String
  price : Int
  category : String
  stock : Int
deriving DecidableEq, Repr

/-- A sequence of `Product.create` calls applied in order to a store. -/
def Product.createMany : List ProductRec → List CreateProductReq → List ProductRec
  | products, [] => products
  | products, r :: rs =>
    Product.createMany
      (Product.create products r.now r.name r.description r.price r.category r.stock).1 rs

/-- A sample `jwt.verify` instance used for concrete checks: it accepts
exactly the token "tok123" and resolves it to the user id "user1". -/
def demoVerify (t : String) : Option String :=
  if t = "tok123" then some "user1" else none

end Rubikamp

namespace Rubikamp

/-- C1 sanity check on a concrete store. -/
example :
    User.getAll [User.make 5 "Ana" "a@x.com" "pw" false] =
      [{ id := "5", name := "Ana", email := "a@x.com", isAdmin := false,
         createdAt := 5 }] := by decide

/-! Shared helper lemmas. -/

theorem find?_append_singleton {α} (l : List α) (p : α → Bool) (a : α)
    (h : l.find? p = none) (ha : p a = true) : (l ++ [a]).find? p = some a := by
  induction l with
  | nil => simp [List.find?, ha]
  | cons x xs ih =>
    rw [List.find?_eq_none] at h
    have hx : ¬ p x := h x (by simp)
    rw [List.cons_append, List.find?_cons_of_neg _ hx]
    exact ih (by rw [List.find?_eq_none]; exact fun b hb => h b (by simp [hb]))

theorem filter_not_of_find?_none {α} (l : List α) (p : α → Bool)
    (h : l.find? p = none) : l.filter (fun a => !(p a)) = l := by
  rw [List.find?_eq_none] at h
  rw [List.filter_eq_self]
  intro a ha
  simpa using h a ha

theorem find?_not_mem_filter_not {α} (l : List α) (p : α → Bool) :
    (l.filter fun a => !(p a)).find? p = none := by
  rw [List.find?_eq_none]
  intro a ha
  have := (List.mem_filter.mp ha).2
  simpa using this

theorem user_find?_updateFirst (users : List UserRec) (id : String)
    (g : UserRec → UserRec) (u : UserRec)
    (h : users.find? (fun x => x.id == id) = some u) (hg : (g u).id = u.id) :
    (User.updateFirst id g users).find? (fun x => x.id == id) = some (g u) := by
  induction users with
  | nil => simp [List.find?] at h
  | cons x xs ih =>
    by_cases hx : x.id == id
    · rw [List.find?_cons_of_pos (p := fun y : UserRec => y.id == id) _ hx] at h
      cases h
      rw [User.updateFirst, if_pos hx]
      exact List.find?_cons_of_pos (p := fun y : UserRec => y.id == id) _ (by show ((g u).id == id) = true; rw [hg]; exact hx)
    · rw [List.find?_cons_of_neg (p := fun y : UserRec => y.id == id) _ hx] at h
      rw [User.updateFirst, if_neg hx,
        List.find?_cons_of_neg (p := fun y : UserRec => y.id == id) _ hx]
      exact ih h

theorem product_find?_updateFirst (products : List ProductRec) (id : String)
    (g : ProductRec → ProductRec) (p : ProductRec)
    (h : products.find? (fun x => x.id == id) = some p) (hg : (g p).id = p.id) :
    (Product.updateFirst id g products).find? (fun x => x.id == id) = some (g p) := by
  induction products with
  | nil => simp [List.find?] at h
  | cons x xs ih =>
    by_cases hx : x.id == id
    · rw [List.find?_cons_of_pos (p := fun y : ProductRec => y.id == id) _ hx] at h
      cases h
      rw [Product.updateFirst, if_pos hx]
      exact List.find?_cons_of_pos (p := fun y : ProductRec => y.id == id) _ (by show ((g p).id == id) = true; rw [hg]; exact hx)
    · rw [List.find?_cons_of_neg (p := fun y : ProductRec => y.id == id) _ hx] at h
      rw [Product.updateFirst, if_neg hx,
        List.find?_cons_of_neg (p := fun y : ProductRec => y.id == id) _ hx]
      exact ih h

theorem product_applyFields_empty (p : ProductRec) :
    Product.applyFields ⟨none, none, none, none, none⟩ p = p := rfl

theorem product_updateFirst_empty (id : String) (l : List ProductRec) :
    Product.updateFirst id (Product.applyFields ⟨none, none, none, none, none⟩) l = l := by
  induction l with
  | nil => rfl
  | cons p ps ih =>
    rw [Product.updateFirst]
    by_cases h : p.id == id
    · rw [if_pos h, product_applyFields_empty]
    · rw [if_neg h, ih]

theorem user_applyUserFields_empty (u : UserRec) :
    User.applyUserFields ⟨none, none, none, none⟩ u = u := rfl

theorem user_updateFirst_empty (id : String) (l : List UserRec) :
    User.updateFirst id (User.applyUserFields ⟨none, none, none, none⟩) l = l := by
  induction l with
  | nil => rfl
  | cons u us ih =>
    rw [User.updateFirst]
    by_cases h : u.id == id
    · rw [if_pos h, user_applyUserFields_empty]
    · rw [if_neg h, ih]

/-- Claim C1: `User.getAll` returns every record, in order, projected to
exactly the fields id, name, email, isAdmin, createdAt; the password is
never present — formally, the output is pointwise the password-free
projection and is invariant under arbitrary rewriting of every stored
password. -/
theorem getAll_projects_without_password (users : List UserRec) :
    (User.getAll users).length = users.length ∧
    (∀ i, (User.getAll users).get? i = (users.get? i).map User.publicOf) ∧
    (∀ pw : UserRec → String,
      User.getAll (users.map fun u => { u with password := pw u }) =
        User.getAll users) := by
  refine ⟨by simp [User.getAll], fun i => by simp [User.getAll], fun pw => ?_⟩
  simp [User.getAll, List.map_map]
  intro a _
  rfl

/-- Claim C2: `requireAdmin` allows the request exactly when the fresh
`User.findById` read of the store yields a record whose isAdmin flag is
true, and responds forbidden exactly when the record is missing or its
flag is false. -/
theorem requireAdmin_characterisation (users : List UserRec) (userId : String) :
    (requireAdmin users userId = .allowed ↔
      ∃ u, User.findById users userId = some u ∧ u.isAdmin = true) ∧
    (requireAdmin users userId = .forbidden ↔
      (User.findById users userId = none ∨
        ∃ u, User.findById users userId = some u ∧ u.isAdmin = false)) := by
  unfold requireAdmin
  cases h : User.findById users userId with
  | none => simp
  | some u =>
    by_cases hA : u.isAdmin <;> simp [hA]

/-- Claim C3 counterexample: the product `{id:"1", name:"Pen", ...}` updated
with the explicitly provided, defined field `name = ""` keeps its old name
"Pen" — `name || product.name` falls back on any falsy string, so a provided
non-`undefined` field does not always overwrite, contradicting the claim's
"if and only if". -/
theorem product_update_empty_string_not_applied :
    Product.update
        [{ id := "1", name := "Pen", description := "Blue pen", price := 1,
           category := "office", stock := 5, createdAt := 0 }] "1"
        { name := some "", description := none, price := none, category := none,
          stock := none } =
      .ok ([{ id := "1", name := "Pen", description := "Blue pen", price := 1,
              category := "office", stock := 5, createdAt := 0 }],
        { id := "1", name := "Pen", description := "Blue pen", price := 1,
          category := "office", stock := 5, createdAt := 0 }) ∧
    ("" : String) ≠ "Pen" := by
  constructor
  · rfl
  · decide

/-- Claim C3 (amended): for an existing product, `update` applies numeric
fields (price, stock) exactly when they are provided and not `undefined` —
in particular provided zeros are applied — while string fields (name,
description, category) are applied only when provided and truthy: a
provided empty string, like an omitted field, leaves the stored value
untouched.  An all-absent field set leaves the store and record unchanged. -/
theorem product_update_merge_patch (products : List ProductRec) (id : String)
    (f : ProductFields) (p : ProductRec)
    (h : Product.findById products id = some p) :
    ∃ r, Product.update products id f =
        .ok (Product.updateFirst id (Product.applyFields f) products, r) ∧
      (∀ v, f.price = some v → r.price = v) ∧
      (f.price = none → r.price = p.price) ∧
      (∀ v, f.stock = some v → r.stock = v) ∧
      (f.stock = none → r.stock = p.stock) ∧
      (∀ s, f.name = some s → s ≠ "" → r.name = s) ∧
      (f.name = some "" ∨ f.name = none → r.name = p.name) ∧
      (∀ s, f.description = some s → s ≠ "" → r.description = s) ∧
      (f.description = some "" ∨ f.description = none →
        r.description = p.description) ∧
      (∀ s, f.category = some s → s ≠ "" → r.category = s) ∧
      (f.category = some "" ∨ f.category = none → r.category = p.category) ∧
      r.id = p.id ∧ r.createdAt = p.createdAt ∧
      (f = ⟨none, none, none, none, none⟩ →
        Product.update products id f = .ok (products, p)) := by
  rw [Product.findById] at h
  refine ⟨Product.applyFields f p, ?_, ?_, ?_, ?_, ?_, ?_, ?_, ?_, ?_, ?_, ?_,
    rfl, rfl, ?_⟩
  · rw [Product.update, h]
  · intro v hv; simp [Product.applyFields, jsDefinedOr, hv]
  · intro hv; simp [Product.applyFields, jsDefinedOr, hv]
  · intro v hv; simp [Product.applyFields, jsDefinedOr, hv]
  · intro hv; simp [Product.applyFields, jsDefinedOr, hv]
  · intro s hs hne; simp [Product.applyFields, jsStringOr, hs, hne]
  · rintro (hs | hs) <;> simp [Product.applyFields, jsStringOr, hs]
  · intro s hs hne; simp [Product.applyFields, jsStringOr, hs, hne]
  · rintro (hs | hs) <;> simp [Product.applyFields, jsStringOr, hs]
  · intro s hs hne; simp [Product.applyFields, jsStringOr, hs, hne]
  · rintro (hs | hs) <;> simp [Product.applyFields, jsStringOr, hs]
  · intro hf
    subst hf
    simp only [Product.update, h, product_updateFirst_empty, product_applyFields_empty]

/-- Witness for the amended C3 theorem at a concrete store: updating the
product `{id:"2", price:3, stock:7, ...}` with `price = 0`, `stock = 0`,
`name = "Ink"` and an empty description yields price 0, stock 0, name "Ink"
and the untouched old description. -/
theorem product_update_merge_patch_witness :
    ∃ r, Product.update
        [{ id := "2", name := "Pen", description := "Blue pen", price := 3,
           category := "office", stock := 7, createdAt := 0 }] "2"
        { name := some "Ink", description := some "", price := some 0,
          category := none, stock := some 0 } =
      .ok (Product.updateFirst "2"
        (Product.applyFields
          { name := some "Ink", description := some "", price := some 0,
            category := none, stock := some 0 })
        [{ id := "2", name := "Pen", description := "Blue pen", price := 3,
           category := "office", stock := 7, createdAt := 0 }], r) ∧
      r.price = 0 ∧ r.stock = 0 ∧ r.name = "Ink" ∧
      r.description = "Blue pen" := by
  obtain ⟨r, hr, hp, -, hs, -, hn, -, -, hd, -, -, -, -, -⟩ :=
    product_update_merge_patch
      [{ id := "2", name := "Pen", description := "Blue pen", price := 3,
         category := "office", stock := 7, createdAt := 0 }] "2"
      { name := some "Ink", description := some "", price := some 0,
        category := none, stock := some 0 }
      { id := "2", name := "Pen", description := "Blue pen", price := 3,
        category := "office", stock := 7, createdAt := 0 } rfl
  exact ⟨r, hr, hp 0 rfl, hs 0 rfl, hn "Ink" rfl (by decide), hd (Or.inl rfl)⟩

/-- Claim C4: the user repository `update(id, fields)` signals "not found"
when no record matches and otherwise performs a merge-patch — each provided
field overwrites, each absent field is kept, id and createdAt are
untouched, and an all-absent field set changes nothing; `delete(id)` keeps
exactly the records whose id differs and is a no-op when no record matched.
(`update` and `delete` are modelled from the spec, §4.2.) -/
theorem user_update_and_delete_contract (users : List UserRec) (id : String)
    (f : UserFields) :
    (User.findById users id = none →
      User.update users id f = .error "User not found" ∧
      User.delete users id = users) ∧
    (∀ u, User.findById users id = some u →
      ∃ users2 r, User.update users id f = .ok (users2, r) ∧
        User.findById users2 id = some r ∧
        r.name = f.name.getD u.name ∧
        r.email = f.email.getD u.email ∧
        r.password = f.password.getD u.password ∧
        r.isAdmin = f.isAdmin.getD u.isAdmin ∧
        r.id = u.id ∧ r.createdAt = u.createdAt ∧
        (f = ⟨none, none, none, none⟩ → users2 = users ∧ r = u)) ∧
    (∀ v, v ∈ User.delete users id ↔ v ∈ users ∧ v.id ≠ id) := by
  refine ⟨fun h => ?_, fun u h => ?_, fun v => ?_⟩
  · rw [User.findById] at h
    constructor
    · simp only [User.update, h]
    · exact filter_not_of_find?_none users (fun x => x.id == id) h
  · rw [User.findById] at h
    refine ⟨User.updateFirst id (User.applyUserFields f) users,
      User.applyUserFields f u, ?_, ?_, rfl, rfl, rfl, rfl, rfl, rfl, ?_⟩
    · simp only [User.update, h]
    · exact user_find?_updateFirst users id _ u h rfl
    · intro hf
      subst hf
      exact ⟨user_updateFirst_empty id users, user_applyUserFields_empty u⟩
  · simp [User.delete, List.mem_filter]

/-- Witness for the C4 theorem at a concrete store: updating or deleting
the unmatched id "9" in a one-user store signals "not found" resp. leaves
the store unchanged, and the stored user survives the deletion. -/
theorem user_update_and_delete_contract_witness :
    (User.update
        [{ id := "1", name := "Ana", email := "a@x.com", password := "pw",
           isAdmin := false, createdAt := 1 }] "9"
        { name := none, email := none, password := none, isAdmin := none } =
          .error "User not found" ∧
      User.delete
        [{ id := "1", name := "Ana", email := "a@x.com", password := "pw",
           isAdmin := false, createdAt := 1 }] "9" =
        [{ id := "1", name := "Ana", email := "a@x.com", password := "pw",
           isAdmin := false, createdAt := 1 }]) ∧
    ({ id := "1", name := "Ana", email := "a@x.com", password := "pw",
       isAdmin := false, createdAt := 1 } : UserRec) ∈
      User.delete
        [{ id := "1", name := "Ana", email := "a@x.com", password := "pw",
           isAdmin := false, createdAt := 1 }] "9" :=
  ⟨(user_update_and_delete_contract
      [{ id := "1", name := "Ana", email := "a@x.com", password := "pw",
         isAdmin := false, createdAt := 1 }] "9"
      { name := none, email := none, password := none, isAdmin := none }).1
    (by decide),
   ((user_update_and_delete_contract
      [{ id := "1", name := "Ana", email := "a@x.com", password := "pw",
         isAdmin := false, createdAt := 1 }] "9"
      { name := none, email := none, password := none, isAdmin := none }).2.2
    ({ id := "1", name := "Ana", email := "a@x.com", password := "pw",
       isAdmin := false, createdAt := 1 } : UserRec)).mpr
    ⟨by decide, by decide⟩⟩

/-- Claim C5 counterexample: with the user `{id:"1", name:"Ana",
email:"a@x.com"}` already stored, `create` of a second user "Bob" with the
same email followed by `findByEmail "a@x.com"` returns Ana's old record,
not the record `create` returned — `find` takes the first match, so the
round-trip fails on a store already holding the key. -/
theorem create_roundtrip_duplicate_email_cex :
    User.findByEmail
        (User.create
          [{ id := "1", name := "Ana", email := "a@x.com", password := "pw",
             isAdmin := false, createdAt := 1 }] 2 "Bob" "a@x.com" "pw2" false).1
        "a@x.com" =
      some { id := "1", name := "Ana", email := "a@x.com", password := "pw",
             isAdmin := false, createdAt := 1 } ∧
    (User.create
        [{ id := "1", name := "Ana", email := "a@x.com", password := "pw",
           isAdmin := false, createdAt := 1 }] 2 "Bob" "a@x.com" "pw2" false).2 ≠
      { id := "1", name := "Ana", email := "a@x.com", password := "pw",
        isAdmin := false, createdAt := 1 } := by
  constructor
  · rfl
  · decide

/-- Claim C5 (amended): `create` followed by `findById` (or `findByEmail`)
with the fresh record's key returns exactly the record `create` returned,
provided no already-stored record carries that key — the generated id does
not collide for `findById`, and the email is not yet stored for
`findByEmail`; likewise for products. -/
theorem create_then_find_roundtrip (users : List UserRec)
    (products : List ProductRec) (now pnow : Nat)
    (name email password : String) (isAdmin : Bool)
    (pname pdesc pcat : String) (price stock : Int)
    (hid : User.findById users (toString now) = none)
    (hemail : User.findByEmail users email = none)
    (hpid : Product.findById products (toString pnow) = none) :
    User.findById (User.create users now name email password isAdmin).1
        (toString now) =
      some (User.create users now name email password isAdmin).2 ∧
    User.findByEmail (User.create users now name email password isAdmin).1
        email =
      some (User.create users now name email password isAdmin).2 ∧
    Product.findById
        (Product.create products pnow pname pdesc price pcat stock).1
        (toString pnow) =
      some (Product.create products pnow pname pdesc price pcat stock).2 := by
  rw [User.findById] at hid
  rw [User.findByEmail] at hemail
  rw [Product.findById] at hpid
  refine ⟨?_, ?_, ?_⟩
  · simp only [User.create, User.findById]
    exact find?_append_singleton users _ _ hid (by simp [User.make])
  · simp only [User.create, User.findByEmail]
    exact find?_append_singleton users _ _ hemail (by simp [User.make])
  · simp only [Product.create, Product.findById]
    exact find?_append_singleton products _ _ hpid (by simp [Product.make])

/-- Witness for the amended C5 theorem: on empty stores, creating a user at
time 1 and a product at time 2 makes both immediately retrievable by their
fresh keys. -/
theorem create_then_find_roundtrip_witness :
    User.findById (User.create [] 1 "Ana" "a@x.com" "pw" false).1
        (toString 1) =
      some (User.create [] 1 "Ana" "a@x.com" "pw" false).2 ∧
    User.findByEmail (User.create [] 1 "Ana" "a@x.com" "pw" false).1
        "a@x.com" =
      some (User.create [] 1 "Ana" "a@x.com" "pw" false).2 ∧
    Product.findById
        (Product.create [] 2 "Pen" "Blue pen" 1 "office" 0).1 (toString 2) =
      some (Product.create [] 2 "Pen" "Blue pen" 1 "office" 0).2 :=
  create_then_find_roundtrip [] [] 1 2 "Ana" "a@x.com" "pw" false
    "Pen" "Blue pen" "office" 1 0 rfl rfl rfl

/-- Claim C6: `Product.delete` followed by `Product.findById` on the same
id yields "not found" on every store; deleting an unmatched id leaves the
record list unchanged, and at file level the delete of any stored document
succeeds (no storage error) and writes back the same document when nothing
matched. -/
theorem product_delete_then_findById (products : List ProductRec) (id : String) :
    Product.findById (Product.delete products id) id = none ∧
    (Product.findById products id = none → Product.delete products id = products) ∧
    (∀ doc : ProductsDoc, ∃ fs2, Product.deleteFile (.stored doc) id = .ok fs2) ∧
    (∀ doc : ProductsDoc, Product.findById doc.products id = none →
      Product.deleteFile (.stored doc) id = .ok (.stored doc)) := by
  refine ⟨?_, fun h => ?_, fun doc => ⟨_, rfl⟩, fun doc hdoc => ?_⟩
  · exact find?_not_mem_filter_not products (fun x => x.id == id)
  · rw [Product.findById] at h
    exact filter_not_of_find?_none products (fun x => x.id == id) h
  · rw [Product.findById] at hdoc
    have h2 : Product.delete doc.products id = doc.products :=
      filter_not_of_find?_none doc.products (fun x => x.id == id) hdoc
    simp only [Product.deleteFile, Product.readProductsFile, h2]

/-- Witness for the C6 theorem: with one stored pen, a delete of id "1"
hides it from `findById`, a delete of the unmatched id "9" is a no-op, and
the file-level delete of "9" rewrites the same document without error. -/
theorem product_delete_then_findById_witness :
    Product.findById
        (Product.delete
          [{ id := "1", name := "Pen", description := "Blue pen", price := 1,
             category := "office", stock := 5, createdAt := 0 }] "1") "1" =
      none ∧
    Product.delete
        [{ id := "1", name := "Pen", description := "Blue pen", price := 1,
           category := "office", stock := 5, createdAt := 0 }] "9" =
      [{ id := "1", name := "Pen", description := "Blue pen", price := 1,
         category := "office", stock := 5, createdAt := 0 }] ∧
    Product.deleteFile
        (.stored ⟨[{ id := "1", name := "Pen", description := "Blue pen",
                     price := 1, category := "office", stock := 5,
                     createdAt := 0 }]⟩)
        "9" =
      .ok (.stored ⟨[{ id := "1", name := "Pen", description := "Blue pen",
                       price := 1, category := "office", stock := 5,
                       createdAt := 0 }]⟩) :=
  ⟨(product_delete_then_findById
      [{ id := "1", name := "Pen", description := "Blue pen", price := 1,
         category := "office", stock := 5, createdAt := 0 }] "1").1,
   (product_delete_then_findById
      [{ id := "1", name := "Pen", description := "Blue pen", price := 1,
         category := "office", stock := 5, createdAt := 0 }] "9").2.1
     (by decide),
   (product_delete_then_findById
      [{ id := "1", name := "Pen", description := "Blue pen", price := 1,
         category := "office", stock := 5, createdAt := 0 }] "9").2.2.2
     ⟨[{ id := "1", name := "Pen", description := "Blue pen", price := 1,
         category := "office", stock := 5, createdAt := 0 }]⟩ (by decide)⟩

/-- Claim C7: `load()` on a missing backing file initializes it to the
document with an empty array under the collection's key, persists it, and
returns it; any other read failure or parse failure propagates to the
caller unrecovered; an existing well-formed file is returned as parsed and
left unchanged — for both the users and the products collections. -/
theorem load_missing_file_initializes :
    User.readUsersFile .missing = .ok (.stored ⟨[]⟩, ⟨[]⟩) ∧
    User.readUsersFile .unreadable = .error .ioError ∧
    User.readUsersFile .corrupt = .error .parseError ∧
    (∀ doc, User.readUsersFile (.stored doc) = .ok (.stored doc, doc)) ∧
    Product.readProductsFile .missing = .ok (.stored ⟨[]⟩, ⟨[]⟩) ∧
    Product.readProductsFile .unreadable = .error .ioError ∧
    Product.readProductsFile .corrupt = .error .parseError ∧
    (∀ doc, Product.readProductsFile (.stored doc) = .ok (.stored doc, doc)) :=
  ⟨rfl, rfl, rfl, fun _ => rfl, rfl, rfl, rfl, fun _ => rfl⟩

/-- Claim C8: `Product.update` with an id matching no stored record signals
"not found" — both as the repository-level thrown error and at file level,
where the error is produced before any save, so the stored document is
returned unchanged. -/
theorem product_update_missing_id (doc : ProductsDoc) (id : String)
    (f : ProductFields) (h : Product.findById doc.products id = none) :
    Product.update doc.products id f = .error "Product not found" ∧
    Product.updateFile (.stored doc) id f = (.stored doc, .error .notFound) := by
  rw [Product.findById] at h
  constructor
  · simp only [Product.update, h]
  · simp only [Product.updateFile, Product.readProductsFile, h]

/-- Witness for the C8 theorem: updating the unmatched id "9" in a
one-product document throws "not found" and leaves the stored document as
it was. -/
theorem product_update_missing_id_witness :
    Product.update
        [{ id := "1", name := "Pen", description := "Blue pen", price := 1,
           category := "office", stock := 5, createdAt := 0 }] "9"
        { name := some "Ink", description := none, price := some 2,
          category := none, stock := none } =
      .error "Product not found" ∧
    Product.updateFile
        (.stored ⟨[{ id := "1", name := "Pen", description := "Blue pen",
                     price := 1, category := "office", stock := 5,
                     createdAt := 0 }]⟩)
        "9"
        { name := some "Ink", description := none, price := some 2,
          category := none, stock := none } =
      (.stored ⟨[{ id := "1", name := "Pen", description := "Blue pen",
                   price := 1, category := "office", stock := 5,
                   createdAt := 0 }]⟩,
       .error .notFound) :=
  product_update_missing_id
    ⟨[{ id := "1", name := "Pen", description := "Blue pen", price := 1,
        category := "office", stock := 5, createdAt := 0 }]⟩ "9"
    { name := some "Ink", description := none, price := some 2,
      category := none, stock := none } (by decide)


theorem user_createMany_ids (users : List UserRec) (reqs : List CreateUserReq) :
    (User.createMany users reqs).map (fun u => u.id) =
      users.map (fun u => u.id) ++ reqs.map (fun r => toString r.now) := by
  induction reqs generalizing users with
  | nil => simp [User.createMany]
  | cons r rs ih =>
    rw [User.createMany, ih]
    simp [User.create, User.make]

theorem product_createMany_ids (products : List ProductRec)
    (reqs : List CreateProductReq) :
    (Product.createMany products reqs).map (fun p => p.id) =
      products.map (fun p => p.id) ++ reqs.map (fun r => toString r.now) := by
  induction reqs generalizing products with
  | nil => simp [Product.createMany]
  | cons r rs ih =>
    rw [Product.createMany, ih]
    simp [Product.create, Product.make]

/-- Claim C9 counterexample: two `User.create` calls that observe the same
`Date.now()` reading (7) produce two stored records with the identical id
"7" — the generated id is not a unique key. -/
theorem same_millisecond_duplicate_ids :
    (User.createMany []
        [{ now := 7, name := "Ana", email := "a@x.com", password := "pw",
           isAdmin := false },
         { now := 7, name := "Bob", email := "b@x.com", password := "pw",
           isAdmin := false }]).map (fun u => u.id) = ["7", "7"] ∧
    ¬ ((User.createMany []
        [{ now := 7, name := "Ana", email := "a@x.com", password := "pw",
           isAdmin := false },
         { now := 7, name := "Bob", email := "b@x.com", password := "pw",
           isAdmin := false }]).map (fun u => u.id)).Nodup := by
  constructor
  · rfl
  · decide

/-- Claim C9 (amended): after any sequence of create operations on an
initially empty collection, no two stored records share an id, provided
the id strings generated from the creation timestamps are pairwise
distinct — two creates observing the same `Date.now()` millisecond
violate this. -/
theorem created_ids_nodup (ureqs : List CreateUserReq)
    (preqs : List CreateProductReq)
    (hu : (ureqs.map fun r => toString r.now).Nodup)
    (hp : (preqs.map fun r => toString r.now).Nodup) :
    ((User.createMany [] ureqs).map fun u => u.id).Nodup ∧
    ((Product.createMany [] preqs).map fun p => p.id).Nodup := by
  rw [user_createMany_ids, product_createMany_ids]
  simpa using ⟨hu, hp⟩

/-- Witness for the amended C9 theorem: two users created at distinct
milliseconds 1 and 2 and two products created at 3 and 4 have pairwise
distinct stored ids. -/
theorem created_ids_nodup_witness :
    ((User.createMany []
        [{ now := 1, name := "Ana", email := "a@x.com", password := "pw",
           isAdmin := false },
         { now := 2, name := "Bob", email := "b@x.com", password := "pw",
           isAdmin := true }]).map fun u => u.id).Nodup ∧
    ((Product.createMany []
        [{ now := 3, name := "Pen", description := "Blue pen", price := 1,
           category := "office", stock := 0 },
         { now := 4, name := "Ink", description := "Black ink", price := 2,
           category := "office", stock := 3 }]).map fun p => p.id).Nodup :=
  created_ids_nodup
    [{ now := 1, name := "Ana", email := "a@x.com", password := "pw",
       isAdmin := false },
     { now := 2, name := "Bob", email := "b@x.com", password := "pw",
       isAdmin := true }]
    [{ now := 3, name := "Pen", description := "Blue pen", price := 1,
       category := "office", stock := 0 },
     { now := 4, name := "Ink", description := "Black ink", price := 2,
       category := "office", stock := 3 }] (by decide) (by decide)

theorem jsSplitChar_no_sep (sep : Char) (l : List Char) (h : sep ∉ l) :
    jsSplitChar sep l = [l] := by
  induction l with
  | nil => rfl
  | cons c cs ih =>
    rw [List.mem_cons] at h
    push_neg at h
    rw [jsSplitChar, if_neg (fun hc => h.1 hc.symm), ih h.2]

theorem jsSplitChar_append (sep : Char) (l1 l2 : List Char) (h : sep ∉ l1) :
    jsSplitChar sep (l1 ++ sep :: l2) = l1 :: jsSplitChar sep l2 := by
  induction l1 with
  | nil =>
    rw [List.nil_append, jsSplitChar, if_pos rfl]
  | cons c cs ih =>
    rw [List.mem_cons] at h
    push_neg at h
    rw [List.cons_append, jsSplitChar, if_neg (fun hc => h.1 hc.symm),
      ih h.2]

/-- Claim C10: `verifyToken` takes the substring after the first space as
the token without checking the scheme word: for any space-free scheme and
any valid space-free token, the header "scheme token" is accepted with
`req.userId` set from the token, while the header holding just the bare
valid token (no space) is rejected with 401. -/
theorem verifyToken_ignores_scheme (verify : String → Option String)
    (scheme tok userId : String)
    (hscheme : ' ' ∉ scheme.data) (htok : ' ' ∉ tok.data) (hne : tok ≠ "")
    (hv : verify tok = some userId) :
    verifyToken verify (some (scheme ++ " " ++ tok)) = .proceed userId ∧
    verifyToken verify (some tok) = .unauthorized := by
  constructor
  · have hdata : (scheme ++ " " ++ tok).data = scheme.data ++ ' ' :: tok.data := by
      rw [String.data_append, String.data_append]
      simp
    have h2 : extractToken (some (scheme ++ " " ++ tok)) = some tok := by
      show ((jsSplitChar ' ' (scheme ++ " " ++ tok).data).get? 1).map String.mk =
        some tok
      rw [hdata, jsSplitChar_append ' ' _ _ hscheme,
        jsSplitChar_no_sep ' ' _ htok]
      rfl
    simp [verifyToken, h2, hne, hv]
  · have h3 : extractToken (some tok) = none := by
      show ((jsSplitChar ' ' tok.data).get? 1).map String.mk = none
      rw [jsSplitChar_no_sep ' ' _ htok]
      rfl
    simp [verifyToken, h3]

/-- Witness for the C10 theorem: under the sample verifier, the header
"Basic tok123" (wrong scheme word) is accepted as user "user1", while the
bare valid token "tok123" without a scheme word is rejected. -/
theorem verifyToken_ignores_scheme_witness :
    verifyToken demoVerify (some ("Basic" ++ " " ++ "tok123")) =
      .proceed "user1" ∧
    verifyToken demoVerify (some "tok123") = .unauthorized :=
  verifyToken_ignores_scheme demoVerify "Basic" "tok123" "user1"
    (by decide) (by decide) (by decide) rfl

end Rubikamp
